import Mathlib

/-!
Verification of the asynchronous comic-generation pipeline.

This file gives a shallow embedding, in Lean 4, of the core of the
`fastapi_test` repository: the comma-separated ID parser and record-fetch
tools (`find_heroes_details` / `find_villians_details`), the LLM-output
extraction (`parse_attributes` and the content-block scan), the schema
validator induced by the declared pydantic/SQLModel field specifications,
the Celery job runner `generate_comic_summary` with its retry budget,
persistence and socket.io notification, and the `create_comic` submission
endpoint.  Machine integers are modelled as `Int`, Python strings as Lean
`String`/`List Char`, the database as an explicit list of rows, and the
fallible steps of each task attempt as an explicit per-attempt environment.
All definitions are executable; theorems about the frozen claims follow the
definitions.
-/

/-- Python `str.strip()` on a list of characters. -/
def trimChars (cs : List Char) : List Char :=
  ((cs.dropWhile Char.isWhitespace).reverse.dropWhile Char.isWhitespace).reverse

/-- Python `str.split(',')`: split on every comma, keeping empty pieces. -/
def splitComma : List Char → List (List Char)
  | [] => [[]]
  | c :: rest =>
    if c = ',' then [] :: splitComma rest
    else match splitComma rest with
      | [] => [[c]]
      | t :: ts => (c :: t) :: ts

/-- Numeric value of a digit string. -/
def digitsVal (cs : List Char) : Nat :=
  cs.foldl (fun n c => 10 * n + (c.toNat - 48)) 0

/-- Python `int(s)` on a string: optional surrounding whitespace, optional
sign, then decimal digits; anything else raises `ValueError` (here `none`). -/
def parsePyInt (s : List Char) : Option Int :=
  let t := trimChars s
  match t with
  | '-' :: rest =>
    if rest ≠ [] ∧ rest.all Char.isDigit then some (-(digitsVal rest : Int)) else none
  | '+' :: rest =>
    if rest ≠ [] ∧ rest.all Char.isDigit then some ((digitsVal rest : Int)) else none
  | _ =>
    if t ≠ [] ∧ t.all Char.isDigit then some ((digitsVal t : Int)) else none

/-- Convert a list of already-stripped tokens to integers; any bad token
fails the whole conversion (the comprehension raises `ValueError`). -/
def intsOfTokens : List (List Char) → Option (List Int)
  | [] => some []
  | t :: ts =>
    match parsePyInt t, intsOfTokens ts with
    | some n, some rest => some (n :: rest)
    | _, _ => none

/-- The ID-string parser used by the lookup tools:
`[int(id.strip()) for id in ids_str.split(',') if id.strip()]`.
Returns `none` when the comprehension raises `ValueError`. -/
def parse_ids (s : String) : Option (List Int) :=
  intsOfTokens (((splitComma s.data).map trimChars).filter (fun t => t ≠ []))

/-- A stored character record (`SuperHero` / `SuperVillian` row); the fetch
tools select rows by the store-assigned primary key `id`. -/
structure CharacterRow where
  id : Int
  name : String
deriving DecidableEq

/-- Result of a lookup tool: either a JSON object with an `error` key, or a
JSON list of the matching records (the shapes `json.dumps` produces). -/
inductive ToolResult where
  | errObj (msg : String)
  | dataList (rows : List CharacterRow)
deriving DecidableEq

/-- Message of the malformed-identifiers error (adjacent string literals in
the source concatenate without a space). -/
def invalidHeroIdsMsg : String := "Invalid hero IDs format.Use comma-separated integers."

/-- Message returned when no hero matches. -/
def heroesNotFoundMsg : String := "No heroes found with the provided IDs."

/-- Message returned when no villain matches. -/
def villiansNotFoundMsg : String := "No villians found with the provided IDs."

/-- `find_heroes_details`: parse the comma-separated IDs, select the heroes
whose `id` is in the parsed list, and return either an error object or the
list of matching rows. -/
def find_heroes_details (hero_ids_str : String) (db : List CharacterRow) : ToolResult :=
  match parse_ids hero_ids_str with
  | none => ToolResult.errObj invalidHeroIdsMsg
  | some hero_ids =>
    let heroes := db.filter (fun h => decide (h.id ∈ hero_ids))
    if heroes = [] then ToolResult.errObj heroesNotFoundMsg
    else ToolResult.dataList heroes

/-- `find_villians_details`: same shape as the hero lookup, over the villain
table, with the villain not-found message. -/
def find_villians_details (villian_ids_str : String) (db : List CharacterRow) : ToolResult :=
  match parse_ids villian_ids_str with
  | none => ToolResult.errObj invalidHeroIdsMsg
  | some villian_ids =>
    let villians := db.filter (fun v => decide (v.id ∈ villian_ids))
    if villians = [] then ToolResult.errObj villiansNotFoundMsg
    else ToolResult.dataList villians

/-- Python `json.dumps` of a list of integers (default separators). -/
def dumpsIntList (xs : List Int) : String :=
  "[" ++ String.intercalate ", " (xs.map toString) ++ "]"

/-- The backtick character. -/
def tick : Char := Char.ofNat 96

/-- The opening-brace character. -/
def obrace : Char := Char.ofNat 123

/-- The closing-brace character. -/
def cbrace : Char := Char.ofNat 125

/-- Does the character list start with a markdown fence (three backticks)? -/
def startsWithFence : List Char → Bool
  | a :: b :: c :: _ => a = tick ∧ b = tick ∧ c = tick
  | _ => false

/-- Drop characters up to and including the first newline. -/
def dropThroughNewline : List Char → List Char
  | [] => []
  | c :: rest => if c = '\n' then rest else dropThroughNewline rest

/-- First substitution of `parse_attributes`:
Python `re.sub(r"(?s)```.*?\n", "", s)` — at each position where three
backticks are followed (non-greedily) by a newline, remove through that
newline and continue after the match; otherwise keep the character.  The
fuel argument bounds the recursion; one unit is spent per step and every
step consumes at least one input character. -/
def removeFenceLines : Nat → List Char → List Char
  | 0, cs => cs
  | _ + 1, [] => []
  | fuel + 1, c :: rest =>
    if startsWithFence (c :: rest) ∧ (rest.drop 2).contains '\n' then
      removeFenceLines fuel (dropThroughNewline (rest.drop 2))
    else c :: removeFenceLines fuel rest

/-- Second substitution of `parse_attributes`:
Python `re.sub(r"```", "", s)` — remove every remaining triple backtick. -/
def removeTicks : Nat → List Char → List Char
  | 0, cs => cs
  | _ + 1, [] => []
  | fuel + 1, c :: rest =>
    if startsWithFence (c :: rest) then removeTicks fuel (rest.drop 2)
    else c :: removeTicks fuel rest

/-- Index of the last occurrence of a character. -/
def lastIndexOf (c : Char) (cs : List Char) : Option Nat :=
  match cs.reverse.findIdx? (fun x => x = c) with
  | none => none
  | some k => some (cs.length - 1 - k)

/-- Python `re.search(r"\x7b.*\x7d", s, re.DOTALL)`: the leftmost match of a
greedy brace-to-brace pattern runs from the first opening brace to the last
closing brace of the whole string, provided that closing brace comes after
the opening one; otherwise there is no match. -/
def braceScan (cs : List Char) : Option (List Char) :=
  match cs.findIdx? (fun x => x = obrace), lastIndexOf cbrace cs with
  | some i, some j => if i < j then some ((cs.drop i).take (j - i + 1)) else none
  | _, _ => none

/-- JSON values, as produced by `json.loads` (numbers restricted to the
integers, which is all the pipeline exchanges). -/
inductive Json where
  | jNull
  | jBool (b : Bool)
  | jNum (n : Int)
  | jStr (s : List Char)
  | jArr (xs : List Json)
  | jObj (fields : List (List Char × Json))

/-- JSON whitespace. -/
def jsonWs (c : Char) : Bool := c = ' ' ∨ c = '\n' ∨ c = '\t' ∨ c = '\r'

/-- Skip JSON whitespace. -/
def skipWs (cs : List Char) : List Char := cs.dropWhile jsonWs

/-- A JSON string escape character and its value. -/
def escChar (e : Char) : Option Char :=
  if e = 'n' then some '\n'
  else if e = 't' then some '\t'
  else if e = 'r' then some '\r'
  else if e = '"' then some '"'
  else if e = '\\' then some '\\'
  else if e = '/' then some '/'
  else none

/-- Parse the body of a JSON string literal (after the opening quote),
returning the decoded characters and the remainder after the closing
quote. -/
def parseStrChars : Nat → List Char → Option (List Char × List Char)
  | 0, _ => none
  | _ + 1, [] => none
  | fuel + 1, c :: rest =>
    if c = '"' then some ([], rest)
    else if c = '\\' then
      match rest with
      | [] => none
      | e :: rest2 =>
        match escChar e with
        | none => none
        | some d =>
          match parseStrChars fuel rest2 with
          | none => none
          | some (s, r) => some (d :: s, r)
    else
      match parseStrChars fuel rest with
      | none => none
      | some (s, r) => some (c :: s, r)

/-- Does the remainder continue a fractional or exponent part (which the
integer-only number model rejects)? -/
def startsFracOrExp : List Char → Bool
  | c :: _ => c = '.' ∨ c = 'e' ∨ c = 'E'
  | [] => false

/-- Parse a JSON integer numeral. -/
def parseNum (cs : List Char) : Option (Int × List Char) :=
  match cs with
  | '-' :: rest =>
    let ds := rest.takeWhile Char.isDigit
    if ds = [] then none
    else if startsFracOrExp (rest.drop ds.length) then none
    else some (-(digitsVal ds : Int), rest.drop ds.length)
  | _ =>
    let ds := cs.takeWhile Char.isDigit
    if ds = [] then none
    else if startsFracOrExp (cs.drop ds.length) then none
    else some ((digitsVal ds : Int), cs.drop ds.length)

mutual

/-- Parse one JSON value, returning it and the unconsumed remainder. -/
def parseJsonVal : Nat → List Char → Option (Json × List Char)
  | 0, _ => none
  | fuel + 1, cs =>
    match skipWs cs with
    | [] => none
    | c :: rest =>
      if c = obrace then
        match parseObjTail fuel rest with
        | some (fs, r) => some (Json.jObj fs, r)
        | none => none
      else if c = '[' then
        match parseArrTail fuel rest with
        | some (vs, r) => some (Json.jArr vs, r)
        | none => none
      else if c = '"' then
        match parseStrChars (fuel + 1) rest with
        | some (s, r) => some (Json.jStr s, r)
        | none => none
      else if c = 'n' ∧ rest.take 3 = ['u', 'l', 'l'] then some (Json.jNull, rest.drop 3)
      else if c = 't' ∧ rest.take 3 = ['r', 'u', 'e'] then some (Json.jBool true, rest.drop 3)
      else if c = 'f' ∧ rest.take 4 = ['a', 'l', 's', 'e'] then some (Json.jBool false, rest.drop 4)
      else
        match parseNum (c :: rest) with
        | some (n, r) => some (Json.jNum n, r)
        | none => none

/-- Parse the items of a JSON array (after the opening bracket). -/
def parseArrTail : Nat → List Char → Option (List Json × List Char)
  | 0, _ => none
  | fuel + 1, cs =>
    match skipWs cs with
    | ']' :: rest => some ([], rest)
    | cs1 =>
      match parseJsonVal fuel cs1 with
      | none => none
      | some (v, r) =>
        match parseArrMore fuel r with
        | none => none
        | some (vs, r2) => some (v :: vs, r2)

/-- Parse the continuation of a JSON array after one item. -/
def parseArrMore : Nat → List Char → Option (List Json × List Char)
  | 0, _ => none
  | fuel + 1, cs =>
    match skipWs cs with
    | ']' :: rest => some ([], rest)
    | ',' :: rest =>
      match parseJsonVal fuel rest with
      | none => none
      | some (v, r) =>
        match parseArrMore fuel r with
        | none => none
        | some (vs, r2) => some (v :: vs, r2)
    | _ => none

/-- Parse the members of a JSON object (after the opening brace). -/
def parseObjTail : Nat → List Char → Option (List (List Char × Json) × List Char)
  | 0, _ => none
  | fuel + 1, cs =>
    match skipWs cs with
    | [] => none
    | c :: rest =>
      if c = cbrace then some ([], rest)
      else if c = '"' then
        match parseStrChars (fuel + 1) rest with
        | none => none
        | some (k, r) =>
          match skipWs r with
          | ':' :: r2 =>
            match parseJsonVal fuel r2 with
            | none => none
            | some (v, r3) =>
              match parseObjMore fuel r3 with
              | none => none
              | some (fs, r4) => some ((k, v) :: fs, r4)
          | _ => none
      else none

/-- Parse the continuation of a JSON object after one member. -/
def parseObjMore : Nat → List Char → Option (List (List Char × Json) × List Char)
  | 0, _ => none
  | fuel + 1, cs =>
    match skipWs cs with
    | [] => none
    | c :: rest =>
      if c = cbrace then some ([], rest)
      else if c = ',' then
        match skipWs rest with
        | '"' :: r =>
          match parseStrChars (fuel + 1) r with
          | none => none
          | some (k, r2) =>
            match skipWs r2 with
            | ':' :: r3 =>
              match parseJsonVal fuel r3 with
              | none => none
              | some (v, r4) =>
                match parseObjMore fuel r4 with
                | none => none
                | some (fs, r5) => some ((k, v) :: fs, r5)
            | _ => none
        | _ => none
      else none

end

/-- Python `json.loads`: the whole string (up to trailing whitespace) must
be one JSON value. -/
def jsonLoads (cs : List Char) : Option Json :=
  match parseJsonVal (2 * cs.length + 4) cs with
  | some (v, r) => if skipWs r = [] then some v else none
  | none => none

/-- The two `ValueError` classes `parse_attributes` raises: no JSON object
found in the response, or `json.loads` failing on the extracted text. -/
inductive PAError where
  | noJsonObject
  | decodeFailed

/-- `parse_attributes`: strip markdown code fences, strip surrounding
whitespace, extract the first-brace-to-last-brace region, and `json.loads`
it; each failure raises a `ValueError` (modelled as `Except.error`). -/
def parse_attributes (llm_response : String) : Except PAError Json :=
  let n := llm_response.data.length + 1
  let cleaned := trimChars (removeTicks n (removeFenceLines n llm_response.data))
  match braceScan cleaned with
  | none => Except.error PAError.noJsonObject
  | some json_str =>
    match jsonLoads json_str with
    | some v => Except.ok v
    | none => Except.error PAError.decodeFailed

/-- One item of a list-shaped LLM message content: a dict (with its `type`
tag and `text` payload) or some non-dict value. -/
inductive ContentItem where
  | dictItem (ty : String) (text : String)
  | nonDict
deriving DecidableEq

/-- The shape of `final_message.content`: a plain string, a list of content
blocks, or anything else. -/
inductive MsgContent where
  | strContent (s : String)
  | listContent (items : List ContentItem)
  | otherContent
deriving DecidableEq

/-- The summary extraction of the task (utils variant): a non-empty list
content yields the `text` of its first dict block whose `type` is `"text"`;
a string content is taken whole; any other shape leaves the summary unset. -/
def extractSummary : MsgContent → Option String
  | MsgContent.strContent s => some s
  | MsgContent.listContent items =>
    items.findSome? (fun it =>
      match it with
      | ContentItem.dictItem ty text => if ty = "text" then some text else none
      | ContentItem.nonDict => none)
  | MsgContent.otherContent => none

/-- The structured payload the agent is constrained to emit
(`ComicPlotOutput`). -/
structure AgentPayload where
  summary_title : String
  summary : String
deriving DecidableEq

/-- The structured-response check of the task (agents variant): a missing
`structured_response` raises `ValueError("No structured response generated
by agent")`. -/
def structuredCheck (r : Option AgentPayload) : Except String AgentPayload :=
  match r with
  | some p => Except.ok p
  | none => Except.error "No structured response generated by agent"

/-- An untyped value of a candidate payload field (Python values reaching
pydantic validation); floats are represented by their integral part and a
fractional remainder tag. -/
inductive PyVal where
  | vNone
  | vStr (s : String)
  | vInt (n : Int)
  | vFloat (whole : Int) (frac : Nat)
deriving DecidableEq

/-- The declared type of a schema field. -/
inductive FieldType where
  | tStr
  | tInt
  | tFloat
deriving DecidableEq

/-- One declared field of a pydantic/SQLModel schema. -/
structure FieldSpec where
  name : String
  ty : FieldType
  required : Bool
deriving DecidableEq

/-- Does a present, non-`None` value satisfy the declared field type
(including the numeric-string coercion pydantic performs)? -/
def typeOk : FieldType → PyVal → Bool
  | FieldType.tStr, PyVal.vStr _ => true
  | FieldType.tInt, PyVal.vInt _ => true
  | FieldType.tInt, PyVal.vStr s => (parsePyInt s.data).isSome
  | FieldType.tFloat, PyVal.vFloat _ _ => true
  | FieldType.tFloat, PyVal.vInt _ => true
  | FieldType.tFloat, PyVal.vStr s => (parsePyInt s.data).isSome
  | _, _ => false

/-- The kind of a per-field validation failure. -/
inductive VioKind where
  | missing
  | wrongType
deriving DecidableEq

/-- One reported validation failure. -/
structure Violation where
  field : String
  kind : VioKind
deriving DecidableEq

/-- First value bound to a key in a candidate payload. -/
def lookupField (name : String) : List (String × PyVal) → Option PyVal
  | [] => none
  | (k, v) :: rest => if k = name then some v else lookupField name rest

/-- The check of a single declared field against a payload: a required field
may not be absent or `None`; a present non-`None` value must have the
declared type. -/
def badField (f : FieldSpec) (payload : List (String × PyVal)) : Option Violation :=
  match lookupField f.name payload with
  | none => if f.required then some ⟨f.name, VioKind.missing⟩ else none
  | some v =>
    if v = PyVal.vNone then
      if f.required then some ⟨f.name, VioKind.wrongType⟩ else none
    else if typeOk f.ty v then none
    else some ⟨f.name, VioKind.wrongType⟩

/-- The schema validator: check every declared field and collect all
failures in one pass. -/
def validateFields (schema : List FieldSpec) (payload : List (String × PyVal)) : List Violation :=
  schema.filterMap (fun f => badField f payload)

/-- The declared fields of `ComicPlotOutput` (both required strings, with
no further constraints). -/
def comicPlotOutputFields : List FieldSpec :=
  [⟨"summary_title", FieldType.tStr, true⟩,
   ⟨"summary", FieldType.tStr, true⟩]

/-- The declared fields of the `SuperHero` model: `hero_name` is required;
every other field is optional with a default, and no range, non-emptiness
or item-count constraint is declared. -/
def superHeroFields : List FieldSpec :=
  [⟨"id", FieldType.tInt, false⟩,
   ⟨"hero_name", FieldType.tStr, true⟩,
   ⟨"real_name", FieldType.tStr, false⟩,
   ⟨"age", FieldType.tInt, false⟩,
   ⟨"origin", FieldType.tStr, false⟩,
   ⟨"height_cm", FieldType.tFloat, false⟩,
   ⟨"weight_kg", FieldType.tFloat, false⟩,
   ⟨"eye_color", FieldType.tStr, false⟩,
   ⟨"hair_color", FieldType.tStr, false⟩,
   ⟨"powers", FieldType.tStr, false⟩,
   ⟨"strength_level", FieldType.tInt, false⟩,
   ⟨"speed_level", FieldType.tInt, false⟩,
   ⟨"durability_level", FieldType.tInt, false⟩,
   ⟨"intelligence_level", FieldType.tInt, false⟩,
   ⟨"weaknesses", FieldType.tStr, false⟩,
   ⟨"strengths", FieldType.tStr, false⟩,
   ⟨"description", FieldType.tStr, false⟩]

/-- A persisted `ComicSummary` row, as constructed by the task: the two ID
columns hold `json.dumps` of the input lists, `id` is store-assigned. -/
structure SummaryRow where
  id : Nat
  hero_ids : String
  villain_ids : String
  summary_title : String
  summary : String
deriving DecidableEq

/-- The payload of the `comic_generated` socket.io event. -/
structure NotifyPayload where
  task_id : String
  status : String
  comic_id : Nat
  comic_title : String
deriving DecidableEq

/-- One observable side-effecting step of a task attempt. -/
inductive Event where
  | lookup
  | validate
  | persist (rowId : Nat)
  | notify (event_name : String) (room : String) (payload : NotifyPayload)
deriving DecidableEq

/-- The environment of one task attempt: what the agent invocation produced
(`none` models an invalid or missing structured response, or an agent
exception), how many lookup tool calls it made, and whether the persistence
commit and the notification publish succeed or raise. -/
structure AttemptEnv where
  structured_response : Option AgentPayload
  lookups : Nat
  persistOk : Bool
  emitOk : Bool

/-- The result of one attempt: whether the `try` body completed, the events
it performed, and the database rows after it. -/
structure AttemptResult where
  ok : Bool
  events : List Event
  rows : List SummaryRow
deriving DecidableEq

/-- One attempt of the task body (agents variant), against a given database
state: the agent runs its lookups, the structured response is checked, a
`ComicSummary` built from `json.dumps` of the verbatim input lists is
committed (receiving the next store id), and the `comic_generated` event is
published to the room named by the task id.  Any step failing aborts the
attempt; a commit that already succeeded keeps its row even when the
publish then raises. -/
def runAttempt (taskId : String) (hero_ids villain_ids : List Int)
    (env : AttemptEnv) (rows : List SummaryRow) : AttemptResult :=
  let lookupEvents := List.replicate env.lookups Event.lookup
  match env.structured_response with
  | none => ⟨false, lookupEvents ++ [Event.validate], rows⟩
  | some p =>
    if env.persistOk then
      let newRow : SummaryRow :=
        ⟨rows.length + 1, dumpsIntList hero_ids, dumpsIntList villain_ids,
         p.summary_title, p.summary⟩
      if env.emitOk then
        let payload : NotifyPayload := ⟨taskId, "success", newRow.id, p.summary_title⟩
        ⟨true,
         lookupEvents ++ [Event.validate, Event.persist newRow.id,
           Event.notify "comic_generated" taskId payload],
         rows ++ [newRow]⟩
      else
        ⟨false, lookupEvents ++ [Event.validate, Event.persist newRow.id],
         rows ++ [newRow]⟩
    else ⟨false, lookupEvents ++ [Event.validate], rows⟩

/-- Terminal status of a task run. -/
inductive JobStatus where
  | succeeded
  | failedMaxRetries
  | failedValueError
deriving DecidableEq

/-- The observable outcome of a task run: terminal status, total number of
attempts, the countdown of every scheduled retry, the per-attempt event
traces, and the final database rows. -/
structure JobResult where
  status : JobStatus
  attempts : Nat
  delays : List Nat
  traces : List (List Event)
  rows : List SummaryRow
deriving DecidableEq

/-- The Celery retry loop: attempt number `k` (equal to
`self.request.retries`) runs the task body; on failure, while `retries < 3`
a retry is scheduled with `countdown=5`, otherwise
`MaxRetriesExceededError` is raised. -/
def runLoop (taskId : String) (hero_ids villain_ids : List Int)
    (envs : Nat → AttemptEnv) (k : Nat) (rows : List SummaryRow) : JobResult :=
  let a := runAttempt taskId hero_ids villain_ids (envs k) rows
  if a.ok then ⟨JobStatus.succeeded, k + 1, [], [a.events], a.rows⟩
  else if k < 3 then
    let rest := runLoop taskId hero_ids villain_ids envs (k + 1) a.rows
    ⟨rest.status, rest.attempts, 5 :: rest.delays, a.events :: rest.traces, rest.rows⟩
  else ⟨JobStatus.failedMaxRetries, k + 1, [], [a.events], a.rows⟩
termination_by 4 - k
decreasing_by omega

/-- The task `generate_comic_summary`: an empty hero or villain list raises
`ValueError` at the top of the body (before the `try` block, so without
any retry); otherwise the attempt loop starts at `retries = 0` on an empty
summary table. -/
def generate_comic_summary (taskId : String) (hero_ids villain_ids : List Int)
    (envs : Nat → AttemptEnv) : JobResult :=
  if hero_ids = [] ∨ villain_ids = [] then
    ⟨JobStatus.failedValueError, 1, [], [[]], []⟩
  else runLoop taskId hero_ids villain_ids envs 0 []

/-- A `/comics/` submission request body (`ComicRequest`). -/
structure ComicRequest where
  hero_ids : List Int
  villain_ids : List Int
deriving DecidableEq

/-- The observable outcome of the `create_comic` endpoint: the jobs it
enqueued and the task id it returned. -/
structure SubmitOutcome where
  enqueued : List ComicRequest
  task_id : String
deriving DecidableEq

/-- The `create_comic` endpoint: it unconditionally enqueues the generation
task with the request ID lists and returns the new task id; no input
validation happens before the enqueue. -/
def create_comic (request : ComicRequest) (newTaskId : String) : SubmitOutcome :=
  ⟨[request], newTaskId⟩

/-- Is an event a notification that a subscriber of the given room
receives?  Socket.io room semantics: an emit with `room=r` is delivered
exactly to the sockets that joined room `r`. -/
def deliveredToRoom (e : Event) (room : String) : Bool :=
  match e with
  | Event.notify _ r _ => r = room
  | _ => false

/-- Does an attempt trace contain any notification event? -/
def hasNotify (tr : List Event) : Bool :=
  tr.any (fun e =>
    match e with
    | Event.notify _ _ _ => true
    | _ => false)

/-- Is a tool result an error-shaped JSON object? -/
def isErrorResult : ToolResult → Bool
  | ToolResult.errObj _ => true
  | ToolResult.dataList _ => false

/-- An environment whose every attempt fails to produce a structured
response (the agent output is always invalid). -/
def envAllInvalid : Nat → AttemptEnv := fun _ => ⟨none, 0, true, true⟩

/-- A single fully successful attempt environment: a valid payload, two
lookup tool calls, the commit and the publish both succeed. -/
def envOkAttempt : AttemptEnv := ⟨some ⟨"Title", "Story"⟩, 2, true, true⟩

/-- An environment whose every attempt succeeds fully. -/
def envsAllOk : Nat → AttemptEnv := fun _ => envOkAttempt

/-- An environment where the first attempt persists its row but the
notification publish raises, and every later attempt succeeds fully. -/
def envEmitFailThenOk : Nat → AttemptEnv := fun n =>
  if n = 0 then ⟨some ⟨"T", "S"⟩, 0, true, false⟩
  else ⟨some ⟨"T", "S"⟩, 0, true, true⟩

/-- An environment where the first attempt persists its row but the
notification publish raises, and every later attempt has an invalid agent
output. -/
def envEmitFailThenInvalid : Nat → AttemptEnv := fun n =>
  if n = 0 then ⟨some ⟨"T", "S"⟩, 0, true, false⟩
  else ⟨none, 0, true, true⟩

/-- The event trace of one fully successful first attempt of
`envsAllOk` with task id `task-A`. -/
def okTrace : List Event :=
  [Event.lookup, Event.lookup, Event.validate, Event.persist 1,
   Event.notify "comic_generated" "task-A" ⟨"task-A", "success", 1, "Title"⟩]

/-- Claim C7: the ID-string parser maps "1,2,3" to [1,2,3], tolerates
surrounding whitespace per token, maps the empty string to the empty list
rather than an error, and any non-integer token yields the typed
malformed-identifiers error with no partial result. -/
theorem c7_theorem :
    parse_ids "1,2,3" = some [1, 2, 3] ∧
    parse_ids "1, 2 ,3" = some [1, 2, 3] ∧
    parse_ids "" = some [] ∧
    parse_ids "a,b" = none ∧
    ∀ db : List CharacterRow,
      find_heroes_details "a,b" db = ToolResult.errObj invalidHeroIdsMsg ∧
      find_villians_details "a,b" db = ToolResult.errObj invalidHeroIdsMsg := by
  refine ⟨by decide, by decide, by decide, by decide, fun db => ⟨?_, ?_⟩⟩
  · unfold find_heroes_details
    rw [show parse_ids "a,b" = none by decide]
  · unfold find_villians_details
    rw [show parse_ids "a,b" = none by decide]

/-- Claim C6 (counterexample): with an empty store, the fetch for ID 1
parses successfully but returns an error-shaped JSON object (the not-found
message), not an empty non-error result. -/
theorem c6_counterexample :
    parse_ids "1" = some [1] ∧
    find_heroes_details "1" [] = ToolResult.errObj heroesNotFoundMsg ∧
    isErrorResult (find_heroes_details "1" []) = true := by
  decide

/-- Claim C6 (amended): when parsing succeeds but no stored record matches,
the fetch returns an error-tagged JSON object carrying the not-found
message — distinguishable from the malformed-identifiers error only by its
message text — rather than an empty list; it never raises. -/
theorem c6_theorem (s : String) (ids : List Int) (db : List CharacterRow)
    (hp : parse_ids s = some ids)
    (hmiss : db.filter (fun h => decide (h.id ∈ ids)) = []) :
    find_heroes_details s db = ToolResult.errObj heroesNotFoundMsg ∧
    find_villians_details s db = ToolResult.errObj villiansNotFoundMsg ∧
    isErrorResult (find_heroes_details s db) = true ∧
    heroesNotFoundMsg ≠ invalidHeroIdsMsg ∧
    villiansNotFoundMsg ≠ invalidHeroIdsMsg := by
  have h1 : find_heroes_details s db = ToolResult.errObj heroesNotFoundMsg := by
    unfold find_heroes_details
    rw [hp]
    simp [hmiss]
  have h2 : find_villians_details s db = ToolResult.errObj villiansNotFoundMsg := by
    unfold find_villians_details
    rw [hp]
    simp [hmiss]
  exact ⟨h1, h2, by rw [h1]; rfl, by decide, by decide⟩

/-- Claim C6 (witness): the amended theorem applied to the fetch of ID 5
against a store holding only ID 1. -/
theorem c6_witness :
    (parse_ids "5" = some [5] ∧
     List.filter (fun h => decide (h.id ∈ ([5] : List Int))) [(⟨1, "A"⟩ : CharacterRow)] = []) ∧
    (find_heroes_details "5" [⟨1, "A"⟩] = ToolResult.errObj heroesNotFoundMsg ∧
     find_villians_details "5" [⟨1, "A"⟩] = ToolResult.errObj villiansNotFoundMsg ∧
     isErrorResult (find_heroes_details "5" [⟨1, "A"⟩]) = true ∧
     heroesNotFoundMsg ≠ invalidHeroIdsMsg ∧
     villiansNotFoundMsg ≠ invalidHeroIdsMsg) :=
  ⟨⟨by decide, by decide⟩, c6_theorem "5" [5] [⟨1, "A"⟩] (by decide) (by decide)⟩

/-- Claim C10: over a store whose primary keys are distinct, a fetch that
returns records returns exactly the store rows whose id is in the parsed
request (each at most once, in store order); concretely, the request
"1,1,2" over a two-row store returns two rows for three requested IDs even
though every requested ID exists. -/
theorem c10_theorem (s : String) (ids : List Int) (db rows : List CharacterRow)
    (hnd : (db.map CharacterRow.id).Nodup)
    (hp : parse_ids s = some ids)
    (hres : find_heroes_details s db = ToolResult.dataList rows) :
    rows = db.filter (fun h => decide (h.id ∈ ids)) ∧
    rows.Sublist db ∧
    (∀ r, rows.count r ≤ 1) ∧
    (parse_ids "1,1,2" = some [1, 1, 2] ∧
     find_heroes_details "1,1,2" [⟨1, "A"⟩, ⟨2, "B"⟩] = ToolResult.dataList [⟨1, "A"⟩, ⟨2, "B"⟩] ∧
     ([(1 : Int), 1, 2].length = 3 ∧ ([(⟨1, "A"⟩ : CharacterRow), ⟨2, "B"⟩]).length = 2) ∧
     ∀ i ∈ [(1 : Int), 1, 2], i ∈ ([(⟨1, "A"⟩ : CharacterRow), ⟨2, "B"⟩]).map CharacterRow.id) := by
  have heq : rows = db.filter (fun h => decide (h.id ∈ ids)) := by
    unfold find_heroes_details at hres
    rw [hp] at hres
    by_cases hc : db.filter (fun h => decide (h.id ∈ ids)) = []
    · simp [hc] at hres
    · simp only [hc, if_neg, ite_false] at hres
      exact (ToolResult.dataList.injEq _ _).mp hres.symm
  have hsub : rows.Sublist db := heq ▸ List.filter_sublist db
  refine ⟨heq, hsub, ?_, by decide, by decide, by decide, by decide⟩
  intro r
  exact List.nodup_iff_count_le_one.mp (List.Nodup.sublist hsub (List.Nodup.of_map _ hnd)) r

/-- Claim C10 (witness): the theorem applied to the request "2,1" over the
store [1, 2]; the result is in store order, not request order. -/
theorem c10_witness :
    ((([(⟨1, "A"⟩ : CharacterRow), ⟨2, "B"⟩]).map CharacterRow.id).Nodup ∧
     parse_ids "2,1" = some [2, 1] ∧
     find_heroes_details "2,1" [⟨1, "A"⟩, ⟨2, "B"⟩] = ToolResult.dataList [⟨1, "A"⟩, ⟨2, "B"⟩]) ∧
    ([(⟨1, "A"⟩ : CharacterRow), ⟨2, "B"⟩]
        = List.filter (fun h => decide (h.id ∈ ([2, 1] : List Int))) [⟨1, "A"⟩, ⟨2, "B"⟩] ∧
     List.Sublist [(⟨1, "A"⟩ : CharacterRow), ⟨2, "B"⟩] [⟨1, "A"⟩, ⟨2, "B"⟩] ∧
     (∀ r, ([(⟨1, "A"⟩ : CharacterRow), ⟨2, "B"⟩]).count r ≤ 1) ∧
     (parse_ids "1,1,2" = some [1, 1, 2] ∧
      find_heroes_details "1,1,2" [⟨1, "A"⟩, ⟨2, "B"⟩] = ToolResult.dataList [⟨1, "A"⟩, ⟨2, "B"⟩] ∧
      ([(1 : Int), 1, 2].length = 3 ∧ ([(⟨1, "A"⟩ : CharacterRow), ⟨2, "B"⟩]).length = 2) ∧
      ∀ i ∈ [(1 : Int), 1, 2], i ∈ ([(⟨1, "A"⟩ : CharacterRow), ⟨2, "B"⟩]).map CharacterRow.id)) :=
  ⟨⟨by decide, by decide, by decide⟩,
   c10_theorem "2,1" [2, 1] [⟨1, "A"⟩, ⟨2, "B"⟩] [⟨1, "A"⟩, ⟨2, "B"⟩]
     (by decide) (by decide) (by decide)⟩

/-- Claim C8 (counterexample): the validator accepts an empty
`summary_title`, a `strength_level` of 1000, and a single-item `powers`
string without reporting any violation — no non-emptiness, inclusive-range
or item-count check exists in the declared schemas. -/
theorem c8_counterexample :
    validateFields comicPlotOutputFields
      [("summary_title", PyVal.vStr ""), ("summary", PyVal.vStr "x")] = [] ∧
    validateFields superHeroFields
      [("hero_name", PyVal.vStr "A"), ("strength_level", PyVal.vInt 1000),
       ("powers", PyVal.vStr "flight"), ("description", PyVal.vStr "")] = [] := by
  decide

/-- Claim C8 (amended): the validator checks, per declared field, presence
and type (with `None` rejected for required fields), and returns the full
set of violated fields in one call with no short-circuit: a reported
violation corresponds exactly to a declared field whose check fails, and a
payload with a type violation and a missing field yields both reports at
once. -/
theorem c8_theorem (schema : List FieldSpec) (payload : List (String × PyVal)) :
    (∀ vio, vio ∈ validateFields schema payload ↔
      ∃ f, f ∈ schema ∧ badField f payload = some vio) ∧
    validateFields comicPlotOutputFields [("summary_title", PyVal.vInt 3)]
      = [⟨"summary_title", VioKind.wrongType⟩, ⟨"summary", VioKind.missing⟩] := by
  constructor
  · intro vio
    unfold validateFields
    exact List.mem_filterMap
  · decide

/-- Claim C9: the output extraction normalizes the three model result
shapes — a schema-conformant structured object, free text whose JSON object
is recovered by stripping markdown fences and scanning from the first
opening brace to the last closing brace, and a content-block list whose
first block of type "text" holds the payload — and every other shape yields
a typed failure rather than a crash. -/
theorem c9_theorem :
    structuredCheck (some ⟨"T", "S"⟩) = Except.ok ⟨"T", "S"⟩ ∧
    structuredCheck none = Except.error "No structured response generated by agent" ∧
    parse_attributes "```json\n\x7b\"summary_title\": \"T\", \"summary\": \"S\"\x7d\n```"
      = Except.ok (Json.jObj
          [("summary_title".data, Json.jStr "T".data),
           ("summary".data, Json.jStr "S".data)]) ∧
    parse_attributes "prose before \x7b\"a\": 1\x7d prose after"
      = Except.ok (Json.jObj [("a".data, Json.jNum 1)]) ∧
    parse_attributes "\x7b\"a\": 1\x7d mid \x7b\"b\": 2\x7d"
      = Except.error PAError.decodeFailed ∧
    parse_attributes "not json at all" = Except.error PAError.noJsonObject ∧
    extractSummary (MsgContent.strContent "plain summary") = some "plain summary" ∧
    extractSummary (MsgContent.listContent
      [ContentItem.nonDict, ContentItem.dictItem "image" "x",
       ContentItem.dictItem "text" "the payload", ContentItem.dictItem "text" "later"])
      = some "the payload" ∧
    extractSummary (MsgContent.listContent []) = none ∧
    extractSummary MsgContent.otherContent = none :=
  ⟨rfl, rfl, rfl, rfl, rfl, rfl, rfl, rfl, rfl, rfl⟩

/-- Claim C5 (counterexample): a submission with an empty hero list is not
rejected synchronously — the endpoint enqueues the job and returns a task
id, and the emptiness check only raises inside the background task. -/
theorem c5_counterexample :
    (create_comic ⟨[], [1]⟩ "task-9").enqueued = [⟨[], [1]⟩] ∧
    (create_comic ⟨[], [1]⟩ "task-9").enqueued ≠ [] ∧
    (generate_comic_summary "task-9" [] [1] envAllInvalid).status
      = JobStatus.failedValueError := by
  exact ⟨by decide, by decide, by decide⟩

/-- Claim C5 (amended): for every submission, the endpoint unconditionally
enqueues exactly the requested job; when either ID sequence is empty the
background task's single attempt raises `ValueError` at its start — after
the enqueue, with no retry scheduled and nothing persisted. -/
theorem c5_theorem (req : ComicRequest) (tid : String) (envs : Nat → AttemptEnv)
    (he : req.hero_ids = [] ∨ req.villain_ids = []) :
    (create_comic req tid).enqueued = [req] ∧
    (generate_comic_summary tid req.hero_ids req.villain_ids envs).status
      = JobStatus.failedValueError ∧
    (generate_comic_summary tid req.hero_ids req.villain_ids envs).rows = [] ∧
    (generate_comic_summary tid req.hero_ids req.villain_ids envs).delays = [] := by
  refine ⟨rfl, ?_⟩
  unfold generate_comic_summary
  rw [if_pos he]
  exact ⟨rfl, rfl, rfl⟩

/-- Claim C5 (witness): the amended theorem applied to the empty-hero
request. -/
theorem c5_witness :
    ((⟨[], [1]⟩ : ComicRequest).hero_ids = [] ∨ (⟨[], [1]⟩ : ComicRequest).villain_ids = []) ∧
    ((create_comic ⟨[], [1]⟩ "task-9").enqueued = [⟨[], [1]⟩] ∧
     (generate_comic_summary "task-9" (⟨[], [1]⟩ : ComicRequest).hero_ids
        (⟨[], [1]⟩ : ComicRequest).villain_ids envAllInvalid).status
        = JobStatus.failedValueError ∧
     (generate_comic_summary "task-9" (⟨[], [1]⟩ : ComicRequest).hero_ids
        (⟨[], [1]⟩ : ComicRequest).villain_ids envAllInvalid).rows = [] ∧
     (generate_comic_summary "task-9" (⟨[], [1]⟩ : ComicRequest).hero_ids
        (⟨[], [1]⟩ : ComicRequest).villain_ids envAllInvalid).delays = []) :=
  ⟨Or.inl rfl, c5_theorem ⟨[], [1]⟩ "task-9" envAllInvalid (Or.inl rfl)⟩

/-- Claim C2: a (non-empty-input) job whose every attempt fails to produce
a structured response reaches the terminal max-retries failure after
exactly 4 attempts — 1 initial plus 3 retries — with every retry scheduled
at countdown 5. -/
theorem c2_theorem (t : String) (h v : List Int) (envs : Nat → AttemptEnv)
    (hh : h ≠ []) (hv : v ≠ [])
    (hinv : ∀ n, (envs n).structured_response = none) :
    (generate_comic_summary t h v envs).status = JobStatus.failedMaxRetries ∧
    (generate_comic_summary t h v envs).attempts = 4 ∧
    (generate_comic_summary t h v envs).delays = [5, 5, 5] := by
  unfold generate_comic_summary
  rw [if_neg (not_or.mpr ⟨hh, hv⟩)]
  refine ⟨?_, ?_, ?_⟩ <;> simp [runLoop, runAttempt, hinv]

/-- Claim C2 (witness): the theorem applied to the always-invalid
environment with one hero and one villain. -/
theorem c2_witness :
    (([1] : List Int) ≠ [] ∧ ([2] : List Int) ≠ [] ∧
     ∀ n, (envAllInvalid n).structured_response = none) ∧
    ((generate_comic_summary "task-1" [1] [2] envAllInvalid).status
       = JobStatus.failedMaxRetries ∧
     (generate_comic_summary "task-1" [1] [2] envAllInvalid).attempts = 4 ∧
     (generate_comic_summary "task-1" [1] [2] envAllInvalid).delays = [5, 5, 5]) :=
  ⟨⟨by decide, by decide, fun _ => rfl⟩,
   c2_theorem "task-1" [1] [2] envAllInvalid (by decide) (by decide) (fun _ => rfl)⟩

/-- Claim C4: within one successful attempt the side-effecting steps occur
in the strict order lookups, then validation, then a single persist
assigning the new summary id, then one publish to the room named by the
task id, with a payload carrying the task id, the success status and the
new summary id; no event of the attempt is delivered to a subscriber of
any other room, so with distinct job ids a notification for one job never
reaches the other job's subscribers. -/
theorem c4_theorem (t : String) (h v : List Int) (env : AttemptEnv) (rows : List SummaryRow)
    (hok : (runAttempt t h v env rows).ok = true) :
    (∃ p : NotifyPayload,
      (runAttempt t h v env rows).events
        = List.replicate env.lookups Event.lookup
          ++ [Event.validate, Event.persist (rows.length + 1),
              Event.notify "comic_generated" t p]
      ∧ p.task_id = t ∧ p.status = "success" ∧ p.comic_id = rows.length + 1)
    ∧ ∀ room, room ≠ t →
        ∀ e ∈ (runAttempt t h v env rows).events, deliveredToRoom e room = false := by
  unfold runAttempt at hok ⊢
  cases hsr : env.structured_response with
  | none => simp [hsr] at hok
  | some p =>
    cases hpe : env.persistOk with
    | false => simp [hsr, hpe] at hok
    | true =>
      cases hee : env.emitOk with
      | false => simp [hsr, hpe, hee] at hok
      | true =>
        dsimp only
        refine ⟨⟨⟨t, "success", rows.length + 1, p.summary_title⟩, rfl, rfl, rfl, rfl⟩, ?_⟩
        intro room hne e he
        simp at he
        rcases he with ⟨_, rfl⟩ | rfl | rfl | rfl
        · rfl
        · rfl
        · rfl
        · simp only [deliveredToRoom, decide_eq_false_iff_not]
          exact fun heq => hne heq.symm

/-- Claim C4 (witness): the theorem applied to a fully successful attempt
of task `task-A` on an empty summary table. -/
theorem c4_witness :
    (runAttempt "task-A" [1] [2] envOkAttempt []).ok = true ∧
    ((∃ p : NotifyPayload,
      (runAttempt "task-A" [1] [2] envOkAttempt []).events
        = List.replicate envOkAttempt.lookups Event.lookup
          ++ [Event.validate, Event.persist (List.length ([] : List SummaryRow) + 1),
              Event.notify "comic_generated" "task-A" p]
      ∧ p.task_id = "task-A" ∧ p.status = "success"
      ∧ p.comic_id = List.length ([] : List SummaryRow) + 1)
    ∧ ∀ room, room ≠ "task-A" →
        ∀ e ∈ (runAttempt "task-A" [1] [2] envOkAttempt []).events,
          deliveredToRoom e room = false) :=
  ⟨by decide, c4_theorem "task-A" [1] [2] envOkAttempt [] (by decide)⟩

/-- One attempt leaves the summary table unchanged or appends exactly one
row whose ID columns are the verbatim serializations; a completed attempt
always appends exactly one. -/
theorem runAttempt_extra (t : String) (h v : List Int) (env : AttemptEnv)
    (rows : List SummaryRow) :
    ∃ extra : List SummaryRow,
      (runAttempt t h v env rows).rows = rows ++ extra ∧
      (∀ r ∈ extra, r.hero_ids = dumpsIntList h ∧ r.villain_ids = dumpsIntList v) ∧
      extra.length ≤ 1 ∧
      ((runAttempt t h v env rows).ok = true → extra.length = 1) := by
  unfold runAttempt
  cases hsr : env.structured_response with
  | none => exact ⟨[], by simp⟩
  | some p =>
    cases hpe : env.persistOk with
    | false => refine ⟨[], ?_⟩; simp [hpe]
    | true =>
      cases hee : env.emitOk with
      | false =>
        refine ⟨[⟨rows.length + 1, dumpsIntList h, dumpsIntList v,
          p.summary_title, p.summary⟩], ?_⟩
        simp [hpe, hee]
      | true =>
        refine ⟨[⟨rows.length + 1, dumpsIntList h, dumpsIntList v,
          p.summary_title, p.summary⟩], ?_⟩
        simp [hpe, hee]

/-- Retry-loop invariant: starting at attempt index `k ≤ 3`, the loop only
appends rows, every appended row carries the verbatim ID serializations,
at most one row is appended per attempt, a succeeded run appended at least
one row, and the total attempt count lies in `(k, 4]`. -/
theorem runLoop_extra (t : String) (h v : List Int) (envs : Nat → AttemptEnv) :
    ∀ n k (rows : List SummaryRow), 4 - k ≤ n → k ≤ 3 →
      ∃ extra : List SummaryRow,
        (runLoop t h v envs k rows).rows = rows ++ extra ∧
        (∀ r ∈ extra, r.hero_ids = dumpsIntList h ∧ r.villain_ids = dumpsIntList v) ∧
        extra.length + k ≤ (runLoop t h v envs k rows).attempts ∧
        ((runLoop t h v envs k rows).status = JobStatus.succeeded → extra ≠ []) ∧
        k < (runLoop t h v envs k rows).attempts ∧
        (runLoop t h v envs k rows).attempts ≤ 4 := by
  intro n
  induction n with
  | zero => intro k rows hn hk; omega
  | succ m ih =>
    intro k rows hn hk
    obtain ⟨ea, hea, hver, hlen, hok1⟩ := runAttempt_extra t h v (envs k) rows
    rw [runLoop.eq_def]
    dsimp only
    by_cases hok : (runAttempt t h v (envs k) rows).ok = true
    · rw [if_pos hok]
      dsimp only
      refine ⟨ea, hea, hver, ?_, ?_, ?_, ?_⟩
      · have := hok1 hok; omega
      · intro _
        have := hok1 hok
        exact List.ne_nil_of_length_pos (by omega)
      · omega
      · omega
    · rw [if_neg hok]
      by_cases hk3 : k < 3
      · rw [if_pos hk3]
        dsimp only
        obtain ⟨er, her, hverr, hlenr, hsuccr, hltr, hler⟩ :=
          ih (k + 1) (runAttempt t h v (envs k) rows).rows (by omega) (by omega)
        refine ⟨ea ++ er, ?_, ?_, ?_, ?_, ?_, ?_⟩
        · rw [her, hea, List.append_assoc]
        · intro r hr
          rcases List.mem_append.mp hr with hr1 | hr2
          · exact hver r hr1
          · exact hverr r hr2
        · have := List.length_append ea er
          omega
        · intro hs
          have hne := hsuccr hs
          intro hcontra
          exact hne (List.append_eq_nil.mp hcontra).2
        · omega
        · exact hler
      · rw [if_neg hk3]
        dsimp only
        refine ⟨ea, hea, hver, by omega, ?_, by omega, by omega⟩
        intro hs
        simp at hs

/-- Claim C1 (counterexample): when the first attempt persists its row but
the notification publish then raises, the scheduled retry runs the whole
body again and persists a second row — the job ends `succeeded` with two
`ComicSummary` rows, not exactly one. -/
theorem c1_counterexample :
    (generate_comic_summary "job-1" [1, 2] [3] envEmitFailThenOk).status
      = JobStatus.succeeded ∧
    (generate_comic_summary "job-1" [1, 2] [3] envEmitFailThenOk).rows.length = 2 := by
  have hEq : generate_comic_summary "job-1" [1, 2] [3] envEmitFailThenOk
      = ⟨JobStatus.succeeded, 2, [5],
         [[Event.validate, Event.persist 1],
          [Event.validate, Event.persist 2,
           Event.notify "comic_generated" "job-1" ⟨"job-1", "success", 2, "T"⟩]],
         [⟨1, "[1, 2]", "[3]", "T", "S"⟩, ⟨2, "[1, 2]", "[3]", "T", "S"⟩]⟩ := by
    simp [generate_comic_summary, runLoop, runAttempt, envEmitFailThenOk]
    decide
  rw [hEq]
  exact ⟨rfl, rfl⟩

/-- Claim C1 (amended): every job that reaches `succeeded` has at least one
persisted `ComicSummary` row, every persisted row's `hero_ids` and
`villain_ids` equal the JSON serialization of the job's input lists
verbatim (order and duplicates preserved), and each of the at most 4
attempts persists at most one row; but a retry after a post-persist notify
failure persists again, so exactly one row is not guaranteed. -/
theorem c1_theorem (t : String) (h v : List Int) (envs : Nat → AttemptEnv)
    (hs : (generate_comic_summary t h v envs).status = JobStatus.succeeded) :
    (∀ r ∈ (generate_comic_summary t h v envs).rows,
        r.hero_ids = dumpsIntList h ∧ r.villain_ids = dumpsIntList v) ∧
    1 ≤ (generate_comic_summary t h v envs).rows.length ∧
    (generate_comic_summary t h v envs).rows.length
      ≤ (generate_comic_summary t h v envs).attempts ∧
    (generate_comic_summary t h v envs).attempts ≤ 4 := by
  unfold generate_comic_summary at hs ⊢
  by_cases he : h = [] ∨ v = []
  · rw [if_pos he] at hs
    simp at hs
  · rw [if_neg he] at hs ⊢
    obtain ⟨extra, hrows, hver, hlen, hsucc, hlt, hle⟩ :=
      runLoop_extra t h v envs 4 0 [] (by omega) (by omega)
    rw [hrows]
    simp only [List.nil_append]
    have hne := hsucc hs
    have hpos : 0 < extra.length := List.length_pos.mpr hne
    exact ⟨hver, by omega, by omega, hle⟩

/-- Claim C1 (witness): the amended theorem applied to a run whose first
attempt succeeds fully. -/
theorem c1_witness :
    (generate_comic_summary "task-A" [1] [2] envsAllOk).status = JobStatus.succeeded ∧
    ((∀ r ∈ (generate_comic_summary "task-A" [1] [2] envsAllOk).rows,
        r.hero_ids = dumpsIntList [1] ∧ r.villain_ids = dumpsIntList [2]) ∧
     1 ≤ (generate_comic_summary "task-A" [1] [2] envsAllOk).rows.length ∧
     (generate_comic_summary "task-A" [1] [2] envsAllOk).rows.length
       ≤ (generate_comic_summary "task-A" [1] [2] envsAllOk).attempts ∧
     (generate_comic_summary "task-A" [1] [2] envsAllOk).attempts ≤ 4) := by
  have hs : (generate_comic_summary "task-A" [1] [2] envsAllOk).status
      = JobStatus.succeeded := by
    simp [generate_comic_summary, runLoop, runAttempt, envsAllOk, envOkAttempt]
  exact ⟨hs, c1_theorem "task-A" [1] [2] envsAllOk hs⟩

/-- Any notification in an attempt trace comes from the success branch: it
is the `comic_generated` event on the task's room, its payload's id matches
the persist event of the same trace, and the matching row (with verbatim ID
serializations) is in the attempt's final rows. -/
theorem runAttempt_notify_mem (t : String) (h v : List Int) (env : AttemptEnv)
    (rows : List SummaryRow) (en room : String) (p : NotifyPayload)
    (hm : Event.notify en room p ∈ (runAttempt t h v env rows).events) :
    en = "comic_generated" ∧ room = t ∧ p.task_id = t ∧ p.status = "success" ∧
    Event.persist p.comic_id ∈ (runAttempt t h v env rows).events ∧
    ∃ r ∈ (runAttempt t h v env rows).rows,
      r.id = p.comic_id ∧ r.hero_ids = dumpsIntList h ∧ r.villain_ids = dumpsIntList v := by
  unfold runAttempt at hm ⊢
  cases hsr : env.structured_response with
  | none => simp [hsr] at hm
  | some q =>
    cases hpe : env.persistOk with
    | false => simp [hsr, hpe] at hm
    | true =>
      cases hee : env.emitOk with
      | false => simp [hsr, hpe, hee] at hm
      | true =>
        dsimp only
        simp [hsr, hpe, hee] at hm
        obtain ⟨he1, he2, he3⟩ := hm
        subst he1; subst he2; subst he3
        refine ⟨rfl, rfl, rfl, rfl, by simp, ?_⟩
        exact ⟨⟨rows.length + 1, dumpsIntList h, dumpsIntList v,
          q.summary_title, q.summary⟩, by simp, rfl, rfl, rfl⟩

/-- Loop-level notify soundness: every notification found in any attempt
trace of a run has a matching persist event in the same trace, and the
persisted row (with verbatim ID serializations) survives into the run's
final rows. -/
theorem runLoop_notify (t : String) (h v : List Int) (envs : Nat → AttemptEnv) :
    ∀ n k (rows : List SummaryRow), 4 - k ≤ n → k ≤ 3 →
      ∀ tr ∈ (runLoop t h v envs k rows).traces,
        ∀ (en room : String) (p : NotifyPayload), Event.notify en room p ∈ tr →
          Event.persist p.comic_id ∈ tr ∧
          ∃ r ∈ (runLoop t h v envs k rows).rows,
            r.id = p.comic_id ∧ r.hero_ids = dumpsIntList h ∧
            r.villain_ids = dumpsIntList v := by
  intro n
  induction n with
  | zero => intro k rows hn hk; omega
  | succ m ih =>
    intro k rows hn hk tr htr en room p hm
    rw [runLoop.eq_def] at htr ⊢
    dsimp only at htr ⊢
    by_cases hok : (runAttempt t h v (envs k) rows).ok = true
    · rw [if_pos hok] at htr ⊢
      dsimp only at htr ⊢
      rw [List.mem_singleton] at htr
      subst htr
      obtain ⟨_, _, _, _, hper, hrow⟩ :=
        runAttempt_notify_mem t h v (envs k) rows en room p hm
      exact ⟨hper, hrow⟩
    · rw [if_neg hok] at htr ⊢
      by_cases hk3 : k < 3
      · rw [if_pos hk3] at htr ⊢
        dsimp only at htr ⊢
        rcases List.mem_cons.mp htr with htr1 | htr2
        · subst htr1
          obtain ⟨_, _, _, _, hper, r, hrmem, hrprops⟩ :=
            runAttempt_notify_mem t h v (envs k) rows en room p hm
          obtain ⟨er, her, _, _, _, _, _⟩ :=
            runLoop_extra t h v envs m (k + 1)
              (runAttempt t h v (envs k) rows).rows (by omega) (by omega)
          refine ⟨hper, r, ?_, hrprops⟩
          rw [her]
          exact List.mem_append_left er hrmem
        · exact ih (k + 1) (runAttempt t h v (envs k) rows).rows
            (by omega) (by omega) tr htr2 en room p hm
      · rw [if_neg hk3] at htr ⊢
        dsimp only at htr ⊢
        rw [List.mem_singleton] at htr
        subst htr
        obtain ⟨_, _, _, _, hper, hrow⟩ :=
          runAttempt_notify_mem t h v (envs k) rows en room p hm
        exact ⟨hper, hrow⟩

/-- Claim C3 (counterexample): a run whose first attempt persists its row
and then fails to publish, with every later attempt invalid, ends with a
persisted `ComicSummary` but no success notification ever emitted — the
persist and notify steps are not a single logical commit. -/
theorem c3_counterexample :
    (generate_comic_summary "job-3" [7] [8] envEmitFailThenInvalid).rows ≠ [] ∧
    ((generate_comic_summary "job-3" [7] [8] envEmitFailThenInvalid).traces.all
      (fun tr => !(hasNotify tr))) = true ∧
    (generate_comic_summary "job-3" [7] [8] envEmitFailThenInvalid).status
      = JobStatus.failedMaxRetries := by
  have hEq : generate_comic_summary "job-3" [7] [8] envEmitFailThenInvalid
      = ⟨JobStatus.failedMaxRetries, 4, [5, 5, 5],
         [[Event.validate, Event.persist 1], [Event.validate], [Event.validate],
          [Event.validate]],
         [⟨1, "[7]", "[8]", "T", "S"⟩]⟩ := by
    simp [generate_comic_summary, runLoop, runAttempt, envEmitFailThenInvalid]
    decide
  rw [hEq]
  exact ⟨by decide, by decide, rfl⟩

/-- Claim C3 (amended): only one direction of the claimed equivalence holds
on the code — every success notification appearing in a run's traces has a
matching persist in the same attempt, and the persisted row (with verbatim
ID serializations) is among the run's final rows; the converse fails, since
a row can be persisted while the notification publish raises and is never
retried for that row. -/
theorem c3_theorem (t : String) (h v : List Int) (envs : Nat → AttemptEnv)
    (tr : List Event) (htr : tr ∈ (generate_comic_summary t h v envs).traces)
    (en room : String) (p : NotifyPayload)
    (hm : Event.notify en room p ∈ tr) :
    Event.persist p.comic_id ∈ tr ∧
    ∃ r ∈ (generate_comic_summary t h v envs).rows,
      r.id = p.comic_id ∧ r.hero_ids = dumpsIntList h ∧
      r.villain_ids = dumpsIntList v := by
  unfold generate_comic_summary at htr ⊢
  by_cases he : h = [] ∨ v = []
  · rw [if_pos he] at htr
    simp only [List.mem_singleton] at htr
    subst htr
    exact absurd hm (List.not_mem_nil _)
  · rw [if_neg he] at htr ⊢
    exact runLoop_notify t h v envs 4 0 [] (by omega) (by omega) tr htr en room p hm

/-- Claim C3 (witness): the amended theorem applied to the notification of
a fully successful first attempt. -/
theorem c3_witness :
    (okTrace ∈ (generate_comic_summary "task-A" [1] [2] envsAllOk).traces ∧
     Event.notify "comic_generated" "task-A" ⟨"task-A", "success", 1, "Title"⟩ ∈ okTrace) ∧
    (Event.persist 1 ∈ okTrace ∧
     ∃ r ∈ (generate_comic_summary "task-A" [1] [2] envsAllOk).rows,
       r.id = 1 ∧ r.hero_ids = dumpsIntList [1] ∧ r.villain_ids = dumpsIntList [2]) := by
  have hEq : generate_comic_summary "task-A" [1] [2] envsAllOk
      = ⟨JobStatus.succeeded, 1, [], [okTrace], [⟨1, "[1]", "[2]", "Title", "Story"⟩]⟩ := by
    simp [generate_comic_summary, runLoop, runAttempt, envsAllOk, envOkAttempt, okTrace]
    decide
  have htr : okTrace ∈ (generate_comic_summary "task-A" [1] [2] envsAllOk).traces := by
    rw [hEq]; exact List.mem_singleton.mpr rfl
  have hm : Event.notify "comic_generated" "task-A" ⟨"task-A", "success", 1, "Title"⟩
      ∈ okTrace := by decide
  have hp : (⟨"task-A", "success", 1, "Title"⟩ : NotifyPayload).comic_id = 1 := rfl
  exact ⟨⟨htr, hm⟩,
    hp ▸ c3_theorem "task-A" [1] [2] envsAllOk okTrace htr
      "comic_generated" "task-A" ⟨"task-A", "success", 1, "Title"⟩ hm⟩
